import Mathlib

/-!
Shallow embedding of the fungraph workspace (graph executor, LLM agent loop,
Gemini chat client and its SSE stream assembler), with theorems checking the
natural-language specification against the code.

Conventions used throughout:
* Rust `async fn run(&self, state: &mut S)` on a node is modelled as a pure
  state transformer `S → S` (the executor runs nodes strictly sequentially).
* petgraph's `Graph` is modelled as a node arena (list, indices are insertion
  order) plus an edge list in insertion order.  petgraph stores the adjacency
  lists as linked lists with head insertion, so `graph.edges(a)` and
  `neighbors_directed` iterate a node's edges in *reverse* insertion order;
  `outEdges` below reflects that.
* Rust panics (`unwrap`, `panic!`) are modelled as `Option`/dedicated
  `panic` outcomes; `Result` is modelled as `Except`.
* serde_json is an external collaborator; JSON (de)serialization at the
  boundary is modelled by explicit parse functions passed as parameters, and
  `serde_json::Value` by the inductive `Json` below.
-/

namespace Fungraph

/-! ## Graph executor — fungraph/src/node/node.rs -/

/-- `FunEdgeType<S>`: a plain `Edge` or a `ConditionalEdge(fn(&S) -> bool)`. -/
inductive FunEdgeType (S : Type) where
  | edge : FunEdgeType S
  | conditionalEdge (cond : S → Bool) : FunEdgeType S

/-- A `FunNode<S>` trait object: a name and the `run` state transformer. -/
structure FunNode (S : Type) where
  name : String
  run : S → S

/-- One petgraph edge: source and target node indices plus its weight. -/
structure GEdge (S : Type) where
  source : Nat
  target : Nat
  weight : FunEdgeType S

/-- `FunGraph<S>`: petgraph `Graph<Box<dyn FunNode<S>>, FunEdgeType<S>>`,
modelled as the node arena plus the edge list in insertion order. -/
structure FunGraph (S : Type) where
  nodes : List (FunNode S)
  edges : List (GEdge S)

/-- `FunGraph::new()`: `Graph::new()` creates an empty graph. -/
def FunGraph.new {S : Type} : FunGraph S := ⟨[], []⟩

/-- `FunGraph::add_node`: push the node, returning its index. -/
def FunGraph.add_node {S : Type} (g : FunGraph S) (n : FunNode S) :
    FunGraph S × Nat :=
  (⟨g.nodes ++ [n], g.edges⟩, g.nodes.length)

/-- `FunGraph::add_edge`: append a plain edge. -/
def FunGraph.add_edge {S : Type} (g : FunGraph S) (a b : Nat) : FunGraph S :=
  ⟨g.nodes, g.edges ++ [⟨a, b, .edge⟩]⟩

/-- `FunGraph::add_edge_with_condition`: append a conditional edge. -/
def FunGraph.add_edge_with_condition {S : Type} (g : FunGraph S) (a b : Nat)
    (cond : S → Bool) : FunGraph S :=
  ⟨g.nodes, g.edges ++ [⟨a, b, .conditionalEdge cond⟩]⟩

/-- `self.graph.edges(current_node)`: petgraph iterates a node's outgoing
edges in reverse insertion order (adjacency lists use head insertion). -/
def FunGraph.outEdges {S : Type} (g : FunGraph S) (a : Nat) : List (GEdge S) :=
  (g.edges.filter (fun e => e.source == a)).reverse

/-- Whether the scanning loop takes edge `e` at state `s`: a plain edge is
always taken, a conditional edge iff its predicate holds. -/
def edgeTaken {S : Type} (s : S) (e : GEdge S) : Bool :=
  match e.weight with
  | .edge => true
  | .conditionalEdge c => c s

/-- The `while let Some(edge) = edges.next()` loop of `FunGraph::run`, with
`next_node` initialized to `cur`: the first plain edge breaks with its
target, a conditional edge breaks with its target only if its predicate is
true, otherwise scanning continues; if nothing is taken `cur` is kept. -/
def scanEdges {S : Type} (s : S) (cur : Nat) : List (GEdge S) → Nat
  | [] => cur
  | e :: rest =>
    match e.weight with
    | .edge => e.target
    | .conditionalEdge c => if c s then e.target else scanEdges s cur rest

/-- The next-node computation of one `FunGraph::run` iteration. -/
def FunGraph.selectNext {S : Type} (g : FunGraph S) (cur : Nat) (s : S) : Nat :=
  scanEdges s cur (g.outEdges cur)

/-- Spec-side reading of the scan (§4.1 of the spec, with the order as the
code has it): the first taken edge of the scan order determines the next
node; when no edge is taken the current node is kept. -/
def FunGraph.selectNextSpec {S : Type} (g : FunGraph S) (cur : Nat) (s : S) :
    Nat :=
  match (g.outEdges cur).find? (edgeTaken s) with
  | some e => e.target
  | none => cur

/-- `FunGraph::get_begin_node`: the unique node with no incoming edges
(`none` models the `panic!("Begin node is not found")` when the count of
such nodes differs from one). -/
def FunGraph.get_begin_node {S : Type} (g : FunGraph S) : Option Nat :=
  let indices := (List.range g.nodes.length).filter
    (fun i => (g.edges.filter (fun e => e.target == i)).length == 0)
  if indices.length == 1 then indices.head? else none

/-- `FunGraph::get_end_node`: the unique node with no outgoing edges
(`none` models the `panic!("End node is not found")`). -/
def FunGraph.get_end_node {S : Type} (g : FunGraph S) : Option Nat :=
  let indices := (List.range g.nodes.length).filter
    (fun i => (g.edges.filter (fun e => e.source == i)).length == 0)
  if indices.length == 1 then indices.head? else none

/-- The `loop` of `FunGraph::run`, with explicit fuel (`none` = fuel ran out
or `node_weight` had no node): run the current node, scan for the next node,
break when the selected next node equals the current one. -/
def FunGraph.runAux {S : Type} (g : FunGraph S) :
    Nat → Nat → S → Option S
  | 0, _, _ => none
  | fuel + 1, cur, s =>
    match g.nodes.get? cur with
    | none => none
    | some node =>
      let s1 := node.run s
      let next := g.selectNext cur s1
      if next == cur then some s1 else g.runAux fuel next s1

/-- `FunGraph::run`: determine the begin and end nodes (panicking — `none` —
when either is not unique), then iterate from the begin node. -/
def FunGraph.run {S : Type} (g : FunGraph S) (fuel : Nat) (s : S) :
    Option S :=
  match g.get_begin_node, g.get_end_node with
  | some b, some _ => g.runAux fuel b s
  | _, _ => none

/-! Helper lemmas about the scan. -/

theorem scanEdges_eq_find {S : Type} (s : S) (cur : Nat)
    (l : List (GEdge S)) :
    scanEdges s cur l =
      (match l.find? (edgeTaken s) with
        | some e => e.target
        | none => cur) := by
  induction l with
  | nil => rfl
  | cons e rest ih =>
    cases he : e.weight with
    | edge =>
      have ht : edgeTaken s e = true := by simp [edgeTaken, he]
      rw [List.find?_cons_of_pos _ ht]
      simp [scanEdges, he]
    | conditionalEdge c =>
      by_cases hc : c s = true
      · have ht : edgeTaken s e = true := by simp [edgeTaken, he, hc]
        rw [List.find?_cons_of_pos _ ht]
        simp [scanEdges, he, hc]
      · have ht : ¬ edgeTaken s e = true := by simp [edgeTaken, he, hc]
        rw [List.find?_cons_of_neg _ ht]
        simp only [scanEdges, he]
        rw [if_neg hc]
        exact ih

theorem scanEdges_of_none_taken {S : Type} (s : S) (cur : Nat)
    (l : List (GEdge S)) (h : ∀ e ∈ l, edgeTaken s e = false) :
    scanEdges s cur l = cur := by
  rw [scanEdges_eq_find]
  have : l.find? (edgeTaken s) = none := by
    rw [List.find?_eq_none]
    intro e he
    simp [h e he]
  rw [this]

/-! Concrete graphs used to evaluate the executor claims. -/

/-- A node over `Nat` state that leaves the state unchanged. -/
def idNode : FunNode Nat := ⟨"id", fun s => s⟩

/-- A node over `Nat` state that increments the state. -/
def incNode : FunNode Nat := ⟨"inc", fun s => s + 1⟩

/-- Three nodes; node 0 has a plain edge to node 1 inserted first and a
conditional edge to node 2 (predicate constantly true) inserted later. -/
def cgPriority : FunGraph Nat :=
  ⟨[idNode, idNode, idNode],
   [⟨0, 1, .edge⟩, ⟨0, 2, .conditionalEdge (fun _ => true)⟩]⟩

/-- Two nodes and one plain edge `0 → 1`. -/
def cgLine : FunGraph Nat :=
  ⟨[incNode, idNode], [⟨0, 1, .edge⟩]⟩

/-- Two nodes and one conditional edge `0 → 1` that is never taken. -/
def cgStuck : FunGraph Nat :=
  ⟨[incNode, idNode], [⟨0, 1, .conditionalEdge (fun _ => false)⟩]⟩

/-- One node with a plain self-loop. -/
def cgSelfLoop : FunGraph Nat :=
  ⟨[incNode], [⟨0, 0, .edge⟩]⟩

/-- C1 (counterexample): node 0 of `cgPriority` has a plain edge to node 1
inserted first and an always-true conditional edge to node 2 inserted later;
the claim says the plain edge takes priority (next node 1), but the executor
scans in reverse insertion order and selects node 2. -/
theorem C1_counterexample :
    cgPriority.selectNext 0 0 = 2 ∧ cgPriority.selectNext 0 0 ≠ 1 :=
  ⟨rfl, by decide⟩

/-- C1 (amended): the executor scans a node's outgoing edges in *reverse*
insertion order (`outEdges` reverses the insertion-ordered edge list); the
first plain edge encountered in that order is taken immediately, a
conditional edge is taken only if its predicate is true on the post-run
state, and the current node is kept when no edge is taken — that is,
`selectNext` equals the first-taken-edge reading `selectNextSpec` of the
reverse-insertion-order scan. -/
theorem C1_scan_reverse_insertion_first_taken :
    ∀ (S : Type) (g : FunGraph S) (cur : Nat) (s : S),
      g.selectNext cur s = g.selectNextSpec cur s := by
  intro S g cur s
  unfold FunGraph.selectNext FunGraph.selectNextSpec
  exact scanEdges_eq_find s cur _

/-- C4 (counterexample): a freshly constructed graph is empty — it holds no
nodes at all, and neither a begin nor an end node can be found (`run` would
panic); no start/end nodes are created automatically. -/
theorem C4_counterexample :
    (FunGraph.new : FunGraph Nat).nodes.length = 0 ∧
      FunGraph.get_begin_node (FunGraph.new : FunGraph Nat) = none ∧
      FunGraph.get_end_node (FunGraph.new : FunGraph Nat) = none :=
  ⟨rfl, by decide, by decide⟩

/-- C4 (amended): graph construction creates an empty graph with no
automatic start or end node; at run time the executor computes the begin
node as the unique node without incoming edges and requires a unique node
without outgoing edges (panicking otherwise), and `run` begins execution at
that computed begin node. -/
theorem C4_run_starts_at_computed_begin_node :
    ((FunGraph.new : FunGraph Nat).nodes = [] ∧
      (FunGraph.new : FunGraph Nat).edges = []) ∧
    ∀ (S : Type) (g : FunGraph S) (b e fuel : Nat) (s : S),
      g.get_begin_node = some b → g.get_end_node = some e →
      g.run fuel s = g.runAux fuel b s := by
  refine ⟨⟨rfl, rfl⟩, ?_⟩
  intro S g b e fuel s hb he
  unfold FunGraph.run
  rw [hb, he]

/-- C4 (witness): on the two-node line graph the begin node is computed as
node 0 and `run` is the loop started there. -/
theorem C4_witness :
    cgLine.get_begin_node = some 0 ∧ cgLine.get_end_node = some 1 ∧
      cgLine.run 2 0 = cgLine.runAux 2 0 0 :=
  ⟨by decide, by decide,
    C4_run_starts_at_computed_begin_node.2 Nat cgLine 0 1 2 0
      (by decide) (by decide)⟩

/-- C6 (confirmed): whenever the loop of `run` sits at a node whose outgoing
edges contain no plain edge to take and only conditional edges whose
predicates are false on the post-run state (i.e. no outgoing edge is taken),
the loop halts and returns the post-run state — at any node, terminal or
not. -/
theorem C6_halt_when_no_edge_taken (S : Type) (g : FunGraph S) (cur : Nat)
    (node : FunNode S) (s : S) (fuel : Nat)
    (hn : g.nodes.get? cur = some node)
    (h : ∀ e ∈ g.edges, e.source = cur → edgeTaken (node.run s) e = false) :
    g.runAux (fuel + 1) cur s = some (node.run s) := by
  have hsel : g.selectNext cur (node.run s) = cur := by
    unfold FunGraph.selectNext
    apply scanEdges_of_none_taken
    intro e he
    unfold FunGraph.outEdges at he
    rw [List.mem_reverse, List.mem_filter] at he
    exact h e he.1 (by simpa using he.2)
  unfold FunGraph.runAux
  rw [hn]
  simp [hsel]

/-- C6 (witness): `cgStuck` has a single never-true conditional edge out of
node 0, a non-terminal node; the run halts there and returns the post-run
state `1`. -/
theorem C6_witness :
    cgStuck.nodes.get? 0 = some incNode ∧ cgStuck.runAux 1 0 0 = some 1 :=
  ⟨rfl, C6_halt_when_no_edge_taken Nat cgStuck 0 incNode 0 0 rfl (by decide)⟩

/-- C10 (confirmed): when the edge selected by the scan is a self-loop, the
chosen next node equals the current node, so the loop's halting test
(`next_node == current_node`) fires and the run returns the state after
running the node exactly once — the taken self-loop does not re-run its
node. -/
theorem C10_selfloop_halts_after_one_run (S : Type) (g : FunGraph S)
    (cur : Nat) (node : FunNode S) (s : S) (fuel : Nat) (e : GEdge S)
    (hn : g.nodes.get? cur = some node)
    (hfind : (g.outEdges cur).find? (edgeTaken (node.run s)) = some e)
    (hself : e.target = cur) :
    g.runAux (fuel + 1) cur s = some (node.run s) := by
  have hsel : g.selectNext cur (node.run s) = cur := by
    unfold FunGraph.selectNext
    rw [scanEdges_eq_find, hfind]
    exact hself
  unfold FunGraph.runAux
  rw [hn]
  simp [hsel]

/-- C10 (witness): in `cgSelfLoop` the scan at node 0 selects the plain
self-loop edge, and the run halts after running the node once (`5 ↦ 6`). -/
theorem C10_witness :
    (cgSelfLoop.outEdges 0).find? (edgeTaken (incNode.run 5)) =
        some ⟨0, 0, .edge⟩ ∧
      cgSelfLoop.runAux 3 0 5 = some 6 :=
  ⟨rfl, C10_selfloop_halts_after_one_run Nat cgSelfLoop 0 incNode 5 2
    ⟨0, 0, .edge⟩ rfl rfl rfl⟩

/-! ## LLM data model — fungraph_llm/src (messages.rs, llm.rs, types/openai.rs) -/

/-- Model of `serde_json::Value`. -/
inductive Json where
  | null : Json
  | bool (b : Bool) : Json
  | num (n : Int) : Json
  | str (s : String) : Json
  | arr (xs : List Json) : Json
  | obj (fields : List (String × Json)) : Json

/-- Serialize an `Option` with `none ↦ null` (serde's default for `Option`). -/
def Json.ofOption {α : Type} (f : α → Json) : Option α → Json
  | none => .null
  | some a => f a

/-- `MessageType`: the role tag of a message. -/
inductive MessageType where
  | system : MessageType
  | ai : MessageType
  | human : MessageType
  | tool : MessageType

/-- `ImageContent`. -/
structure ImageContent where
  image_url : String
  detail : Option String

/-- `Message`: content, role, optional id (tool-call correlation), optional
tool-call payload, optional images and optional tool name. -/
structure Message where
  content : Option String
  message_type : MessageType
  id : Option String
  tool_calls : Option Json
  images : Option (List ImageContent)
  name : Option String

/-- `Message::new_human_message`. -/
def Message.new_human_message (c : String) : Message :=
  ⟨some c, .human, none, none, none, none⟩

/-- `Message::new_system_message`. -/
def Message.new_system_message (c : String) : Message :=
  ⟨some c, .system, none, none, none, none⟩

/-- `Message::new_ai_message`. -/
def Message.new_ai_message (c : String) : Message :=
  ⟨some c, .ai, none, none, none, none⟩

/-- `Message::new_tool_message`: a tool-role message carrying the tool call
id for correlation. -/
def Message.new_tool_message (c : String) (id : String) : Message :=
  ⟨some c, .tool, some id, none, none, none⟩

/-- `openai::Property` (JSON-schema property). -/
structure Property where
  type : String
  items : Option String
  description : Option String
  enum_values : Option (List String)

/-- `openai::Parameters`; the `properties` HashMap is modelled as an
association list. -/
structure Parameters where
  type : String
  properties : List (String × Property)
  required : Option (List String)

/-- `openai::Tool` (the advertised function schema; `type` is always
`"function"`). -/
structure Tool where
  name : String
  description : String
  parameters : Parameters

/-- `Messages`: the ordered message sequence plus the tool schemas attached
for this turn. -/
structure Messages where
  messages : List Message
  tools : List Tool

/-- `Messages::add_message`: push one message. -/
def Messages.add_message (m : Messages) (msg : Message) : Messages :=
  ⟨m.messages ++ [msg], m.tools⟩

/-- `TokenUsage`. -/
structure TokenUsage where
  prompt_tokens : Nat
  completion_tokens : Nat
  total_tokens : Nat

/-- `GenerateResult`: optional token usage, the generated text, and the
(unused) `tool_call` field. -/
structure GenerateResult where
  tokens : Option TokenUsage
  generation : String
  tool_call : Option String

/-- `GenerateResult::default()`. -/
def GenerateResult.default : GenerateResult := ⟨none, "", none⟩

/-- `GenerateResult::new(generation, tokens)`. -/
def GenerateResult.new (generation : String) (tokens : Option TokenUsage) :
    GenerateResult :=
  ⟨tokens, generation, none⟩

/-- `ToolCallResult`: call id, tool name, parsed JSON arguments and the
synthetic assistant message announcing the call. -/
structure ToolCallResult where
  id : String
  name : String
  arguments : Json
  ai_message : Message

/-- `LLMResult`: exactly one of a textual generation or a tool call. -/
inductive LLMResult where
  | Generate (g : GenerateResult) : LLMResult
  | ToolCall (t : ToolCallResult) : LLMResult

/-- `LLMError` (fungraph_llm/src/error.rs variants used by this code;
each carries its message as a string). -/
inductive LLMError where
  | RequestError (e : String) : LLMError
  | SerdeError (e : String) : LLMError
  | EventSourceError (e : String) : LLMError
  | OtherError (e : String) : LLMError
  | AnyhowError (e : String) : LLMError

/-! ## Tools and the agent loop — fungraph/src/agent/mod.rs -/

/-- Modelled from the spec: the `FunTool` trait itself is declared in a
module not present under src/ (only its impls, callers and tests are); per
§6 a tool is a name, a description, JSON-schema parameters and an async
`call(json arguments) -> string result` that can fail (`anyhow::Result`,
modelled as `Except String String`). -/
structure FunTool where
  name : String
  description : String
  parameters : Parameters
  call : Json → Except String String

/-- `to_openai_tool` (fungraph/src/tools/tool.rs): wrap name, description
and parameters into the advertised function schema. -/
def FunTool.to_openai_tool (t : FunTool) : Tool :=
  ⟨t.name, t.description, t.parameters⟩

/-- `LLMAgent<T>`: the provider (its `invoke` modelled as a function from
request messages to a result), the optional system prompt, and the tool
table (a `HashMap<String, Box<dyn FunTool>>`, modelled as an association
list with unique keys; iteration order of the map is arbitrary in Rust and
is modelled here as list order). -/
structure LLMAgent where
  llm : Messages → Except LLMError LLMResult
  system_prompt : Option String
  tools : List (String × FunTool)

/-- `LLMAgentBuilder<T>`. -/
structure LLMAgentBuilder where
  llm : Messages → Except LLMError LLMResult
  system_prompt : Option Message
  tools : List (String × FunTool)

/-- `LLMAgentBuilder::new(llm)`. -/
def LLMAgentBuilder.new (llm : Messages → Except LLMError LLMResult) :
    LLMAgentBuilder :=
  ⟨llm, none, []⟩

/-- `LLMAgentBuilder::with_system_prompt`. -/
def LLMAgentBuilder.with_system_prompt (b : LLMAgentBuilder) (s : String) :
    LLMAgentBuilder :=
  { b with system_prompt := some (Message.new_system_message s) }

/-- `HashMap::insert` on the association list: replace the binding when the
key is present, append otherwise. -/
def insertTool (l : List (String × FunTool)) (k : String) (v : FunTool) :
    List (String × FunTool) :=
  if l.any (fun p => p.1 == k) then
    l.map (fun p => if p.1 == k then (k, v) else p)
  else l ++ [(k, v)]

/-- `LLMAgentBuilder::with_tool`: insert the tool under its name. -/
def LLMAgentBuilder.with_tool (b : LLMAgentBuilder) (t : FunTool) :
    LLMAgentBuilder :=
  { b with tools := insertTool b.tools t.name t }

/-- `LLMAgentBuilder::build`: `self.system_prompt.unwrap().content` — the
`unwrap` panics (`none`) when no system prompt was configured; otherwise the
agent's prompt is the message's `content` field. -/
def LLMAgentBuilder.build (b : LLMAgentBuilder) : Option LLMAgent :=
  match b.system_prompt with
  | none => none
  | some m => some ⟨b.llm, m.content, b.tools⟩

/-- `Conversation`: one recorded request/response pair. -/
structure Conversation where
  request : Messages
  response : LLMResult

/-- `AgentResponse`: final answer text plus the conversation trace. -/
structure AgentResponse where
  final_answer : String
  intermediate_steps : List Conversation

/-- `LLMAgent::build_messages`: system prompt (if any), then the tool
schemas (if any), then the human message. -/
def LLMAgent.build_messages (a : LLMAgent) (message : String) : Messages :=
  let msgs :=
    match a.system_prompt with
    | some sp => [Message.new_system_message sp]
    | none => []
  let tools := a.tools.map (fun p => p.2.to_openai_tool)
  ⟨msgs ++ [Message.new_human_message message],
   if tools.isEmpty then [] else tools⟩

/-- `LLMAgent::build_messages2`: system prompt (if any) and tool schemas
(if any) prepended to the supplied history (whose own tool list is
dropped). -/
def LLMAgent.build_messages2 (a : LLMAgent) (messages : Messages) :
    Messages :=
  let msgs :=
    match a.system_prompt with
    | some sp => [Message.new_system_message sp]
    | none => []
  let tools := a.tools.map (fun p => p.2.to_openai_tool)
  ⟨msgs ++ messages.messages, if tools.isEmpty then [] else tools⟩

/-- `LLMAgent::chat`: invoke the provider on the built request; on a
`Generate` result stop with the one recorded conversation; on a `ToolCall`
append the synthetic assistant message, look the tool up, call it (a tool
error is propagated by `?`, dropping the accumulated conversations), append
the correlated tool message, re-invoke the provider once and record the
second conversation; an unknown tool returns the single recorded
conversation. -/
def LLMAgent.chat (a : LLMAgent) (message : String) :
    Except LLMError (List Conversation) :=
  let messages := a.build_messages message
  match a.llm messages with
  | .error e => .error e
  | .ok result =>
    let conversations := [⟨messages, result⟩]
    match result with
    | .Generate _ => .ok conversations
    | .ToolCall tc =>
      let messages := messages.add_message tc.ai_message
      match a.tools.lookup tc.name with
      | some tool =>
        match tool.call tc.arguments with
        | .error e => .error (.AnyhowError e)
        | .ok toolOut =>
          let messages :=
            messages.add_message (Message.new_tool_message toolOut tc.id)
          match a.llm messages with
          | .error e => .error e
          | .ok result2 => .ok (conversations ++ [⟨messages, result2⟩])
      | none => .ok conversations

/-- `LLMAgent::invoke`: same branch structure as `chat` over a supplied
history; `final_answer` is set only from a first `Generate` result and
stays `""` on the tool-call branch. -/
def LLMAgent.invoke (a : LLMAgent) (messages0 : Messages) :
    Except LLMError AgentResponse :=
  let messages := a.build_messages2 messages0
  match a.llm messages with
  | .error e => .error e
  | .ok result =>
    let conversations := [⟨messages, result⟩]
    match result with
    | .Generate g => .ok ⟨g.generation, conversations⟩
    | .ToolCall tc =>
      let messages := messages.add_message tc.ai_message
      match a.tools.lookup tc.name with
      | some tool =>
        match tool.call tc.arguments with
        | .error e => .error (.AnyhowError e)
        | .ok toolOut =>
          let messages :=
            messages.add_message (Message.new_tool_message toolOut tc.id)
          match a.llm messages with
          | .error e => .error e
          | .ok result2 => .ok ⟨"", conversations ++ [⟨messages, result2⟩]⟩
      | none => .ok ⟨"", conversations⟩

/-! Concrete agents used to evaluate the agent-loop claims. -/

/-- A registered tool whose call always succeeds. -/
def exTool : FunTool :=
  ⟨"get_weather", "weather tool", ⟨"object", [], none⟩, fun _ => .ok "sunny"⟩

/-- A second registered tool whose call always succeeds. -/
def exTool2 : FunTool :=
  ⟨"get_time", "time tool", ⟨"object", [], none⟩, fun _ => .ok "noon"⟩

/-- A registered tool whose call always fails. -/
def failTool : FunTool :=
  ⟨"failing", "always fails", ⟨"object", [], none⟩,
   fun _ => .error "tool failed"⟩

/-- A provider tool-call result naming `get_weather`. -/
def tcA : ToolCallResult :=
  ⟨"call_1", "get_weather", .obj [("location", .str "tokyo")],
   Message.new_ai_message "calling get_weather"⟩

/-- A provider tool-call result naming `get_time`. -/
def tcB : ToolCallResult :=
  ⟨"call_2", "get_time", .obj [], Message.new_ai_message "calling get_time"⟩

/-- A provider tool-call result naming the failing tool. -/
def tcFail : ToolCallResult :=
  ⟨"call_3", "failing", .obj [], Message.new_ai_message "calling failing"⟩

/-- An agent whose provider answers the first request (two messages) with
tool call `tcA` and every later request with tool call `tcB`; both named
tools are registered. -/
def exAgentC2 : LLMAgent :=
  ⟨fun ms =>
      if ms.messages.length ≤ 2 then .ok (.ToolCall tcA)
      else .ok (.ToolCall tcB),
   some "sys",
   [("get_weather", exTool), ("get_time", exTool2)]⟩

/-- The first request `exAgentC2` sends. -/
def exC2m1 : Messages := exAgentC2.build_messages "hi"

/-- The augmented second request `exAgentC2` sends. -/
def exC2m2 : Messages :=
  (exC2m1.add_message tcA.ai_message).add_message
    (Message.new_tool_message "sunny" tcA.id)

/-- An agent whose provider always requests the failing tool. -/
def exAgentC5 : LLMAgent :=
  ⟨fun _ => .ok (.ToolCall tcFail), some "sys", [("failing", failTool)]⟩

/-- C2 (counterexample): `exAgentC2`'s second provider response is again a
tool call naming a registered tool, yet `chat` returns exactly the two
recorded conversations — the branch is not repeated on the new result, so
the trace can never contain more than two entries. -/
theorem C2_counterexample :
    exAgentC2.chat "hi" =
        .ok [⟨exC2m1, .ToolCall tcA⟩, ⟨exC2m2, .ToolCall tcB⟩] ∧
      (exAgentC2.chat "hi").map (fun l => l.length) = .ok 2 ∧
      (exAgentC2.tools.lookup tcB.name).isSome = true :=
  ⟨rfl, rfl, rfl⟩

/-- C2 (amended): the tool-call branch is executed at most once per
`chat`/`invoke`: on a tool call naming a registered tool whose invocation
succeeds, the agent appends the assistant and correlated tool messages,
re-invokes the provider once and returns exactly the two recorded
conversations, even when the new result is again a tool call; the returned
trace never holds more than two entries. -/
theorem C2_tool_branch_runs_at_most_once :
    (∀ (a : LLMAgent) (msg : String) (tc : ToolCallResult) (tool : FunTool)
        (toolOut : String) (r2 : LLMResult),
        a.llm (a.build_messages msg) = .ok (.ToolCall tc) →
        a.tools.lookup tc.name = some tool →
        tool.call tc.arguments = .ok toolOut →
        a.llm (((a.build_messages msg).add_message tc.ai_message).add_message
            (Message.new_tool_message toolOut tc.id)) = .ok r2 →
        a.chat msg = .ok [⟨a.build_messages msg, .ToolCall tc⟩,
          ⟨((a.build_messages msg).add_message tc.ai_message).add_message
              (Message.new_tool_message toolOut tc.id), r2⟩]) ∧
    (∀ (a : LLMAgent) (msg : String) (convs : List Conversation),
        a.chat msg = .ok convs → convs.length ≤ 2) ∧
    (∀ (a : LLMAgent) (ms : Messages) (r : AgentResponse),
        a.invoke ms = .ok r → r.intermediate_steps.length ≤ 2) := by
  refine ⟨?_, ?_, ?_⟩
  · intro a msg tc tool toolOut r2 h1 h2 h3 h4
    simp only [LLMAgent.chat]
    rw [h1]
    simp only [h2, h3, h4]
    rfl
  · intro a msg convs h
    simp only [LLMAgent.chat] at h
    repeat' split at h
    all_goals (try simp_all)
    all_goals (subst h; simp)
  · intro a ms r h
    simp only [LLMAgent.invoke] at h
    repeat' split at h
    all_goals (try simp_all)
    all_goals (subst h; simp)

/-- C2 (witness): the amended behaviour evaluated on `exAgentC2`. -/
theorem C2_witness :
    exAgentC2.llm (exAgentC2.build_messages "hi") = .ok (.ToolCall tcA) ∧
      exAgentC2.chat "hi" =
        .ok [⟨exC2m1, .ToolCall tcA⟩, ⟨exC2m2, .ToolCall tcB⟩] :=
  ⟨rfl,
    C2_tool_branch_runs_at_most_once.1 exAgentC2 "hi" tcA exTool "sunny"
      (.ToolCall tcB) rfl rfl rfl rfl⟩

/-- C5 (counterexample): `exAgentC5`'s provider requests the registered but
failing tool; `chat` returns the propagated error and *not* the accumulated
conversation trace — the first request/response pair is discarded. -/
theorem C5_counterexample :
    exAgentC5.chat "hi" = .error (.AnyhowError "tool failed") := rfl

/-- C5 (amended): when the invoked tool's call returns an error, `chat` and
`invoke` abort the turn by propagating the error (`?` on the tool result);
the conversation trace accumulated so far is discarded, not returned. -/
theorem C5_tool_error_discards_trace :
    (∀ (a : LLMAgent) (msg : String) (tc : ToolCallResult) (tool : FunTool)
        (e : String),
        a.llm (a.build_messages msg) = .ok (.ToolCall tc) →
        a.tools.lookup tc.name = some tool →
        tool.call tc.arguments = .error e →
        a.chat msg = .error (.AnyhowError e)) ∧
    (∀ (a : LLMAgent) (ms : Messages) (tc : ToolCallResult) (tool : FunTool)
        (e : String),
        a.llm (a.build_messages2 ms) = .ok (.ToolCall tc) →
        a.tools.lookup tc.name = some tool →
        tool.call tc.arguments = .error e →
        a.invoke ms = .error (.AnyhowError e)) := by
  constructor
  · intro a msg tc tool e h1 h2 h3
    simp only [LLMAgent.chat]
    rw [h1]
    simp only [h2, h3]
  · intro a ms tc tool e h1 h2 h3
    simp only [LLMAgent.invoke]
    rw [h1]
    simp only [h2, h3]

/-- C5 (witness): the amended behaviour evaluated on `exAgentC5`. -/
theorem C5_witness :
    failTool.call tcFail.arguments = .error "tool failed" ∧
      exAgentC5.chat "hi" = .error (.AnyhowError "tool failed") :=
  ⟨rfl,
    C5_tool_error_discards_trace.1 exAgentC5 "hi" tcFail failTool
      "tool failed" rfl rfl rfl⟩

/-- C9 (confirmed): `LLMAgentBuilder::build` unwraps the optional system
prompt, so it panics (`none`) on every builder whose system prompt was never
set; `new` starts with no system prompt and `with_tool` leaves it untouched,
so a builder on which `with_system_prompt` was never called always has
`system_prompt = none` and `build` necessarily panics. -/
theorem C9_build_without_system_prompt_panics :
    (∀ b : LLMAgentBuilder, b.system_prompt = none → b.build = none) ∧
    (∀ llm : Messages → Except LLMError LLMResult,
        (LLMAgentBuilder.new llm).system_prompt = none) ∧
    (∀ (b : LLMAgentBuilder) (t : FunTool),
        (b.with_tool t).system_prompt = b.system_prompt) := by
  refine ⟨?_, fun _ => rfl, fun _ _ => rfl⟩
  intro b hb
  unfold LLMAgentBuilder.build
  rw [hb]

/-- C9 (witness): a builder constructed with `new` and `with_tool` only. -/
theorem C9_witness :
    ((LLMAgentBuilder.new (fun _ => .error (.OtherError "llm"))).with_tool
        exTool).system_prompt = none ∧
      ((LLMAgentBuilder.new (fun _ => .error (.OtherError "llm"))).with_tool
        exTool).build = none :=
  ⟨rfl,
    C9_build_without_system_prompt_panics.1
      ((LLMAgentBuilder.new (fun _ => .error (.OtherError "llm"))).with_tool
        exTool) rfl⟩

/-! ## Gemini client and stream assembler — fungraph_llm/src/gemini/llm.rs,
with the wire types of fungraph_llm/src/types/openai.rs -/

/-- `openai::FinishReason`. -/
inductive FinishReason where
  | Stop : FinishReason
  | Length : FinishReason
  | ToolCalls : FinishReason
  | ContentFilter : FinishReason
  | FunctionCall : FinishReason

/-- `FunctionCallStream`: possibly missing name/argument fragments. -/
structure FunctionCallStream where
  name : Option String
  arguments : Option String

/-- `ChatCompletionMessageToolCallChunk` (`r_type` models the optional
`type` field, whose only value is `function`). -/
structure ToolCallChunk where
  index : Option Int
  id : Option String
  r_type : Option Unit
  function : Option FunctionCallStream

/-- `ChatCompletionStreamResponseDelta` (the deprecated `function_call`
and `role`/`refusal` fields are never read by this code). -/
structure StreamDelta where
  content : Option String
  tool_calls : Option (List ToolCallChunk)

/-- `ChatChoiceStream`. -/
structure ChatChoiceStream where
  index : Nat
  delta : StreamDelta
  finish_reason : Option FinishReason

/-- `CompletionUsage`. -/
structure CompletionUsage where
  prompt_tokens : Nat
  completion_tokens : Nat
  total_tokens : Nat

/-- `CreateChatCompletionStreamResponse` (the fields this code reads). -/
structure StreamChunk where
  choices : List ChatChoiceStream
  usage : Option CompletionUsage

/-- serde serialization of `FunctionCallStream`. -/
def encodeFunctionCallStream (f : FunctionCallStream) : Json :=
  .obj [("name", Json.ofOption .str f.name),
        ("arguments", Json.ofOption .str f.arguments)]

/-- serde serialization of `ChatCompletionMessageToolCallChunk`. -/
def encodeToolCallChunk (c : ToolCallChunk) : Json :=
  .obj [("index", Json.ofOption .num c.index),
        ("id", Json.ofOption .str c.id),
        ("type", Json.ofOption (fun _ => .str "function") c.r_type),
        ("function", Json.ofOption encodeFunctionCallStream c.function)]

/-- `serde_json::to_value(&choice.delta.tool_calls)`. -/
def encodeToolCallChunks (tcs : Option (List ToolCallChunk)) : Json :=
  Json.ofOption (fun l => .arr (l.map encodeToolCallChunk)) tcs

/-- The data of one SSE `message` event: the literal `[DONE]` sentinel or a
JSON payload, given by its serde parse result (`Except.error` carries the
serde error message for a malformed payload). -/
inductive EsData where
  | done : EsData
  | payload (parsed : Except String StreamChunk) : EsData

/-- One item of the underlying `reqwest_eventsource::EventSource` stream:
a transport error (with a flag marking the benign `StreamEnded` variant),
the `Open` control event, or a `Message` event. -/
inductive EsEvent where
  | esError (streamEnded : Bool) (msg : String) : EsEvent
  | esOpen : EsEvent
  | esMessage (data : EsData) : EsEvent

/-- Outcome of one `ChatStream::poll_next` step on one upstream item:
an emitted item, stream termination (`Poll::Ready(None)`), a Rust panic
(`unwrap` failure), or no item (the `Open` event is skipped). -/
inductive PollStep where
  | yield (r : Except LLMError LLMResult) : PollStep
  | stop : PollStep
  | panic : PollStep
  | skip : PollStep

/-- The per-chunk logic of `ChatStream::poll_next` (`Ok(response)` branch):
extract token usage; inspect the first choice; on `finish_reason =
tool_calls` unwrap the chunk's own first tool call (name, then arguments,
then their JSON parse — each missing piece panics); on any other or no
finish reason emit the frame's content fragment as a `Generate`, or the
`"No content in response"` error when the delta has none; no choices is the
`"No choices in response"` error. `parseVal` models
`serde_json::from_str::<Value>` on the argument string. -/
def processChunk (parseVal : String → Option Json) (response : StreamChunk) :
    PollStep :=
  let tokens : Option TokenUsage :=
    match response.usage with
    | some u => some ⟨u.prompt_tokens, u.completion_tokens, u.total_tokens⟩
    | none => none
  match response.choices.head? with
  | none => .yield (.error (.OtherError "No choices in response"))
  | some choice =>
    match choice.finish_reason with
    | some .ToolCalls =>
      match choice.delta.tool_calls with
      | none => .panic
      | some tcs =>
        match tcs.head? with
        | none => .panic
        | some tc =>
          match tc.function with
          | none => .panic
          | some fcall =>
            match fcall.name with
            | none => .panic
            | some name =>
              match fcall.arguments with
              | none => .panic
              | some argStr =>
                match parseVal argStr with
                | none => .panic
                | some args =>
                  .yield (.ok (.ToolCall
                    ⟨"", name, args,
                     ⟨some "tool called", .ai, none,
                      some (encodeToolCallChunks choice.delta.tool_calls),
                      none, none⟩⟩))
    | _ =>
      match choice.delta.content with
      | some content =>
        .yield (.ok (.Generate (GenerateResult.new content tokens)))
      | none => .yield (.error (.OtherError "No content in response"))

/-- `ChatStream::poll_next` on one upstream item: `StreamEnded` terminates
the stream as success, any other transport error is yielded as an error
item, `Open` yields nothing, the `[DONE]` sentinel terminates the stream, a
malformed payload is yielded as a serde error item, and a parsed chunk is
handled by `processChunk`. -/
def processEvent (parseVal : String → Option Json) : EsEvent → PollStep
  | .esError true _ => .stop
  | .esError false m => .yield (.error (.EventSourceError m))
  | .esOpen => .skip
  | .esMessage .done => .stop
  | .esMessage (.payload (.error e)) => .yield (.error (.SerdeError e))
  | .esMessage (.payload (.ok chunk)) => processChunk parseVal chunk

/-- Drive `ChatStream` over a list of upstream items: collect the yielded
items in order until the stream terminates (sentinel, `StreamEnded` or
upstream end) or panics; the Boolean records whether a panic occurred. -/
def runChatStream (parseVal : String → Option Json) :
    List EsEvent → List (Except LLMError LLMResult) × Bool
  | [] => ([], false)
  | ev :: rest =>
    match processEvent parseVal ev with
    | .yield r =>
      let t := runChatStream parseVal rest
      (r :: t.1, t.2)
    | .stop => ([], false)
    | .panic => ([], true)
    | .skip => runChatStream parseVal rest

/-- A frame carrying one text fragment: one choice whose delta has content
`t` and no finish reason, no usage. -/
def mkTextFrame (t : String) : EsEvent :=
  .esMessage (.payload (.ok ⟨[⟨0, ⟨some t, none⟩, none⟩], none⟩))

/-- Concatenation of a list of strings in order. -/
def concatList : List String → String
  | [] => ""
  | s :: rest => s ++ concatList rest

/-- What the consumer reconstructs from the emitted items: the `Generate`
fragments concatenated in arrival order. -/
def concatGenerations : List (Except LLMError LLMResult) → String
  | [] => ""
  | .ok (.Generate g) :: rest => g.generation ++ concatGenerations rest
  | _ :: rest => concatGenerations rest

theorem runChatStream_textFrames (pv : String → Option Json)
    (rest : List EsEvent) (fragments : List String) :
    runChatStream pv (fragments.map mkTextFrame ++ .esMessage .done :: rest)
      = (fragments.map
          (fun t => .ok (.Generate (GenerateResult.new t none))), false) := by
  induction fragments with
  | nil => rfl
  | cons t ts ih =>
    have hstep : processEvent pv (mkTextFrame t) =
        .yield (.ok (.Generate (GenerateResult.new t none))) := rfl
    simp only [List.map_cons, List.cons_append, runChatStream, hstep,
      List.append_eq]
    rw [ih]

theorem concatGenerations_map (l : List String) :
    concatGenerations
        (l.map (fun t => .ok (.Generate (GenerateResult.new t none))))
      = concatList l := by
  induction l with
  | nil => rfl
  | cons t ts ih =>
    simp only [List.map_cons, concatGenerations, concatList]
    rw [ih]
    rfl

/-- C7 (confirmed): for a text answer split into N ≥ 1 fragments followed by
the `[DONE]` sentinel (and anything after it), the assembler emits exactly
one `Generate` item per fragment in arrival order, emits nothing for the
sentinel or anything after it, and the consumer-side concatenation of the
emitted fragments reproduces the original text exactly. -/
theorem C7_stream_reassembly (pv : String → Option Json) (text : String)
    (fragments : List String) (rest : List EsEvent)
    (_hne : fragments ≠ []) (hjoin : concatList fragments = text) :
    runChatStream pv (fragments.map mkTextFrame ++ .esMessage .done :: rest)
        = (fragments.map
            (fun t => .ok (.Generate (GenerateResult.new t none))), false) ∧
      concatGenerations
          (runChatStream pv
            (fragments.map mkTextFrame ++ .esMessage .done :: rest)).1
        = text := by
  refine ⟨runChatStream_textFrames pv rest fragments, ?_⟩
  rw [runChatStream_textFrames pv rest fragments]
  simpa [concatGenerations_map] using hjoin

/-- C7 (witness): Scenario E — fragments `"he"`, `"llo"` then the sentinel
reassemble to `"hello"`, and a frame after the sentinel is not emitted. -/
theorem C7_witness :
    (["he", "llo"] : List String) ≠ [] ∧
      (runChatStream (fun _ => none)
          (["he", "llo"].map mkTextFrame ++
            .esMessage .done :: [mkTextFrame "late"])
          = (["he", "llo"].map
              (fun t => .ok (.Generate (GenerateResult.new t none))), false) ∧
        concatGenerations
            (runChatStream (fun _ => none)
              (["he", "llo"].map mkTextFrame ++
                .esMessage .done :: [mkTextFrame "late"])).1
          = "hello") :=
  ⟨by decide,
    C7_stream_reassembly (fun _ => none) "hello" ["he", "llo"]
      [mkTextFrame "late"] (by decide) rfl⟩

/-- A tiny concrete stand-in for `serde_json::from_str::<Value>` used at
concrete inputs: it parses exactly the decimal-digit strings (JSON
numbers) and rejects everything else. -/
def parseValNum (s : String) : Option Json :=
  if s.data ≠ [] ∧ s.data.all Char.isDigit then
    some (.num (Int.ofNat
      (s.data.foldl (fun n c => 10 * n + (c.toNat - 48)) 0)))
  else none

/-- First fragment frame of a split tool call: the name and the first half
`"12"` of the arguments, no finish reason. -/
def fragFrame1 : EsEvent :=
  .esMessage (.payload (.ok
    ⟨[⟨0, ⟨none, some [⟨some 0, some "", some (),
        some ⟨some "get_weather", some "12"⟩⟩]⟩, none⟩], none⟩))

/-- Second fragment frame of the split tool call: the remaining argument
half `"34"` with no name, finish reason `tool_calls`. -/
def fragFrame2 : EsEvent :=
  .esMessage (.payload (.ok
    ⟨[⟨0, ⟨none, some [⟨some 0, some "", some (),
        some ⟨none, some "34"⟩⟩]⟩, some .ToolCalls⟩], none⟩))

/-- The same tool call delivered in a single unfragmented frame. -/
def wholeFrame : EsEvent :=
  .esMessage (.payload (.ok
    ⟨[⟨0, ⟨none, some [⟨some 0, some "", some (),
        some ⟨some "get_weather", some "1234"⟩⟩]⟩, some .ToolCalls⟩],
     none⟩))

/-- C3 (counterexample): the tool call split over `fragFrame1`/`fragFrame2`
yields a `"No content in response"` error for the first fragment and then a
panic (`name.unwrap()` on the name-less second fragment) — no `ToolCall`
item at all — while the identical call in one unfragmented frame yields the
`ToolCall` with arguments parsed from that frame; nothing is accumulated or
concatenated across frames. -/
theorem C3_counterexample :
    runChatStream parseValNum [fragFrame1, fragFrame2, .esMessage .done]
        = ([.error (.OtherError "No content in response")], true) ∧
      runChatStream parseValNum [wholeFrame, .esMessage .done]
        = ([.ok (.ToolCall ⟨"", "get_weather", .num 1234,
            ⟨some "tool called", .ai, none,
             some (encodeToolCallChunks (some [⟨some 0, some "", some (),
               some ⟨some "get_weather", some "1234"⟩⟩])),
             none, none⟩⟩)], false) :=
  ⟨rfl, rfl⟩

/-- C3 (amended): the stream assembler keeps no per-index accumulator —
every frame is handled independently, the item emitted for a frame being a
function of that frame alone: over any prefix of frames that each yield an
item, the collected results are exactly the per-frame results followed by
whatever the remaining frames produce.  A `ToolCall` is therefore emitted
only when a single frame carries `finish_reason = tool_calls` together with
a complete name and arguments (parsed from that frame's own argument
string); fragments delivered across several frames are never concatenated. -/
theorem C3_frames_processed_independently (pv : String → Option Json)
    (fs rest : List EsEvent)
    (h : ∀ ev ∈ fs, ∃ r, processEvent pv ev = .yield r) :
    runChatStream pv (fs ++ rest)
      = ((fs.filterMap (fun ev =>
            match processEvent pv ev with
            | .yield r => some r
            | _ => none)) ++ (runChatStream pv rest).1,
         (runChatStream pv rest).2) := by
  induction fs with
  | nil => simp
  | cons ev fs ih =>
    obtain ⟨r, hr⟩ := h ev (List.mem_cons_self ev fs)
    have ih2 := ih (fun e he => h e (List.mem_cons_of_mem ev he))
    simp only [List.cons_append, runChatStream, hr, List.filterMap_cons,
      List.append_eq]
    rw [ih2]

/-- C3 (witness): the independence statement evaluated on a one-frame
prefix before the sentinel. -/
theorem C3_witness :
    runChatStream parseValNum ([mkTextFrame "a"] ++ [.esMessage .done])
      = (([mkTextFrame "a"].filterMap (fun ev =>
            match processEvent parseValNum ev with
            | .yield r => some r
            | _ => none)) ++
          (runChatStream parseValNum [.esMessage .done]).1,
         (runChatStream parseValNum [.esMessage .done]).2) :=
  C3_frames_processed_independently parseValNum [mkTextFrame "a"]
    [.esMessage .done]
    (fun ev hev => by
      rw [List.mem_singleton] at hev
      subst hev
      exact ⟨.ok (.Generate (GenerateResult.new "a" none)), rfl⟩)

/-- `FunctionCall` (non-streaming): complete name and argument string. -/
structure FunctionCall where
  name : String
  arguments : String

/-- `ChatCompletionMessageToolCall` (its `type` is always `function`). -/
structure ToolCallFull where
  id : String
  function : FunctionCall

/-- `ChatCompletionResponseMessage` (the fields this code reads). -/
structure ResponseMessage where
  content : Option String
  tool_calls : Option (List ToolCallFull)

/-- `ChatChoice` of a `GeminiResponse`. -/
structure ChatChoice where
  message : ResponseMessage
  finish_reason : Option FinishReason

/-- `GeminiResponse` (the fields this code reads). -/
structure GeminiResponse where
  choices : List ChatChoice
  usage : Option CompletionUsage

/-- serde serialization of `FunctionCall`. -/
def encodeFunctionCall (f : FunctionCall) : Json :=
  .obj [("name", .str f.name), ("arguments", .str f.arguments)]

/-- serde serialization of `ChatCompletionMessageToolCall`. -/
def encodeToolCallFull (t : ToolCallFull) : Json :=
  .obj [("id", .str t.id), ("type", .str "function"),
        ("function", encodeFunctionCall t.function)]

/-- `serde_json::to_value(&choice.message.tool_calls)`. -/
def encodeToolCallsFull (tcs : Option (List ToolCallFull)) : Json :=
  Json.ofOption (fun l => .arr (l.map encodeToolCallFull)) tcs

/-- What the HTTP POST of `Gemini::generate` came back with, at the reqwest
boundary: a transport fault (an error from `send()`/`text()`, propagated by
`?`), or a response with its success flag, status text and body. -/
inductive TransportResult where
  | fail (e : String) : TransportResult
  | response (isSuccess : Bool) (status : String) (body : String) :
      TransportResult

/-- Outcome of `Gemini::generate`: an `Ok` result, a typed `Err`, or a Rust
panic (`unwrap` failure). -/
inductive GenOutcome where
  | ok (r : LLMResult) : GenOutcome
  | error (e : LLMError) : GenOutcome
  | panic : GenOutcome

/-- `Gemini::generate` after the request was sent: a transport fault is
returned as `RequestError`; on a non-success status the status and body are
wrapped in `OtherError`; on a success status the body is deserialized
(`SerdeError` on failure; `parseResp` models serde) and the first choice is
inspected — no choices yields the default empty `Generate`, a missing
`finish_reason` panics (`unwrap`), `tool_calls` unwraps the first tool call
and parses its argument string (`parseVal` models
`serde_json::from_str::<Value>`, panicking on failure), and any other
finish reason yields the message content (or `""`). -/
def Gemini.generate (parseResp : String → Except String GeminiResponse)
    (parseVal : String → Option Json) (t : TransportResult) : GenOutcome :=
  match t with
  | .fail e => .error (.RequestError e)
  | .response isSuccess status body =>
    if isSuccess then
      match parseResp body with
      | .error e => .error (.SerdeError e)
      | .ok gr =>
        match gr.choices.head? with
        | none => .ok (.Generate GenerateResult.default)
        | some choice =>
          match choice.finish_reason with
          | none => .panic
          | some .ToolCalls =>
            match choice.message.tool_calls with
            | none => .panic
            | some tcs =>
              match tcs.head? with
              | none => .panic
              | some tc =>
                match parseVal tc.function.arguments with
                | none => .panic
                | some args =>
                  .ok (.ToolCall ⟨tc.id, tc.function.name, args,
                    ⟨some "tool called", .ai, none,
                     some (encodeToolCallsFull choice.message.tool_calls),
                     none, none⟩⟩)
          | some _ =>
            .ok (.Generate ⟨none,
              (match choice.message.content with
                | some c => c
                | none => ""), none⟩)
    else
      .error (.OtherError ("Gemini API error: " ++ status ++ " - " ++ body))

/-- A concrete stand-in for serde deserialization of a `GeminiResponse`:
it accepts exactly the body `"noreason"`, producing a response whose single
choice has content but no finish reason, and reports everything else as
malformed. -/
def parseRespC8 (s : String) : Except String GeminiResponse :=
  if s = "noreason" then .ok ⟨[⟨⟨some "hi", none⟩, none⟩], none⟩
  else .error "invalid JSON"

/-- C8 (counterexample): a successful (HTTP 200) response whose first
choice lacks the `finish_reason` field deserializes fine, and
`Gemini::generate` then panics on `finish_reason.unwrap()` instead of
returning a typed error to the caller. -/
theorem C8_counterexample :
    Gemini.generate parseRespC8 parseValNum
        (.response true "200 OK" "noreason") = .panic := rfl

/-- C8 (amended): transport faults, non-success HTTP statuses and malformed
JSON bodies on the non-streaming call are returned as typed errors to the
immediate caller — but a successful response whose first choice is missing
the expected `finish_reason` field is a panic (`unwrap`), not a typed
error. -/
theorem C8_fault_propagation :
    (∀ (pr : String → Except String GeminiResponse)
        (pv : String → Option Json) (e : String),
        Gemini.generate pr pv (.fail e) = .error (.RequestError e)) ∧
    (∀ (pr : String → Except String GeminiResponse)
        (pv : String → Option Json) (st body e : String),
        pr body = .error e →
        Gemini.generate pr pv (.response true st body)
          = .error (.SerdeError e)) ∧
    (∀ (pr : String → Except String GeminiResponse)
        (pv : String → Option Json) (st body : String),
        Gemini.generate pr pv (.response false st body)
          = .error (.OtherError ("Gemini API error: " ++ st ++ " - " ++ body))) ∧
    (∀ (pr : String → Except String GeminiResponse)
        (pv : String → Option Json) (st body : String) (gr : GeminiResponse)
        (choice : ChatChoice),
        pr body = .ok gr → gr.choices.head? = some choice →
        choice.finish_reason = none →
        Gemini.generate pr pv (.response true st body) = .panic) := by
  refine ⟨fun pr pv e => rfl, ?_, fun pr pv st body => rfl, ?_⟩
  · intro pr pv st body e h
    simp only [Gemini.generate, if_true]
    rw [h]
  · intro pr pv st body gr choice h1 h2 h3
    simp only [Gemini.generate, if_true]
    rw [h1]
    simp only [h2, h3]

/-- C8 (witness): the fault cases evaluated at concrete inputs. -/
theorem C8_witness :
    Gemini.generate parseRespC8 parseValNum (.fail "connection refused")
        = .error (.RequestError "connection refused") ∧
      Gemini.generate parseRespC8 parseValNum
          (.response true "200" "garbage") = .error (.SerdeError "invalid JSON") ∧
      Gemini.generate parseRespC8 parseValNum
          (.response false "500 Internal Server Error" "oops")
        = .error (.OtherError
            "Gemini API error: 500 Internal Server Error - oops") ∧
      Gemini.generate parseRespC8 parseValNum (.response true "200" "noreason")
        = .panic :=
  ⟨C8_fault_propagation.1 parseRespC8 parseValNum "connection refused",
   C8_fault_propagation.2.1 parseRespC8 parseValNum "200" "garbage"
     "invalid JSON" rfl,
   C8_fault_propagation.2.2.1 parseRespC8 parseValNum
     "500 Internal Server Error" "oops",
   C8_fault_propagation.2.2.2 parseRespC8 parseValNum "200" "noreason"
     ⟨[⟨⟨some "hi", none⟩, none⟩], none⟩ ⟨⟨some "hi", none⟩, none⟩
     rfl rfl rfl⟩
